import Mathlib

/-!
Shallow embedding of `serial_vcr.py`: a Python 2 driver for a JVC serial-port
VCR.  Bytes are modelled as `Nat`, Python strings of bytes as `List Nat`,
text strings as `List Char`, fallible Python operations as `Option`/`Except`,
and the real-time side effects of `converse`/`wait_until_mode` (serial reads
and writes, `time.sleep`) as explicit event lists and a fuel-indexed loop.
-/

/-! ## Protocol byte constants (serial_vcr.py lines 4-35) -/

def ACK : Nat := 0x0A
def NAK : Nat := 0x0B
def ERROR : Nat := 0x02

def STATUS_SENSE : Nat := 0xD7
def CURRENT_CTL_SENSE : Nat := 0xD9

/-! ## Status-sense bit tables (lines 40-125) -/

/-- Embeds `STATUS_SENSE_MODE_BITS` (lines 40-106): for each of the five
response bytes, the meaning of bits 0-7 in order; `none` embeds Python's
`None` placeholders. -/
def STATUS_SENSE_MODE_BITS : List (List (Option (List Char))) :=
  [ -- Byte 1
    [some "ERROR".toList, none, none, some "CASSETTE OUT".toList,
     some "REC INHIBIT".toList, some "SHORT FF/REW".toList, none, none],
    -- Byte 2
    [some "TAPE END".toList, some "TAPE BEGIN".toList, none, some "WARNING".toList,
     some "AUDIO MUTE".toList, some "VIDEO MUTE".toList, some "A1 EE MODE".toList,
     some "EE MODE".toList],
    -- Byte 3
    [none, some "SEARCH MODE".toList, some "REPEAT MODE".toList, none,
     some "REPEAT".toList, none, none, none],
    -- Byte 4
    [some "AUDIODUB".toList, some "REC".toList, some "EJECT".toList,
     some "STANDBY".toList, some "STOP".toList, some "REW".toList,
     some "FF".toList, some "PLAY".toList],
    -- Byte 5
    [none, none, none, none, some "SHUTTLE REV".toList, some "SHUTTLE FWD".toList,
     some "LONG PAUSE".toList, some "PAUSE".toList] ]

/-- Embeds `SPEED_TABLE` (lines 108-125).  In the Python source the entry
`'INVALID(4)'` on line 113 has no trailing comma, so Python's implicit
adjacent-string-literal concatenation merges it with the following `'1'`
into the single element `'INVALID(4)1'`; the tuple therefore has 15
elements, not 16. -/
def SPEED_TABLE : List (List Char) :=
  ["STILL".toList,
   "1/30".toList,
   "1/18".toList,
   "1/6".toList,
   "INVALID(4)1".toList,
   "2(-3)".toList,
   "5".toList,
   "7".toList,
   "11".toList,
   "15".toList,
   "24".toList,
   "INVALID(C)".toList,
   "INVALID(D)".toList,
   "INVALID(E)".toList,
   "INVALID(F)".toList]

/-- Embeds `translate_bits` (lines 160-166): collect the meaning of every set
bit whose meaning is not `None`, in bit order. -/
def translate_bits (num : Nat) (bit_meanings : List (Option (List Char))) :
    List (List Char) :=
  bit_meanings.enum.filterMap (fun p =>
    match p.2 with
    | none => none
    | some meaning => if (1 <<< p.1) &&& num ≠ 0 then some meaning else none)

/-- Embeds the decoding half of `VCR.status_sense` (lines 221-227), applied to
the 5 response bytes `data` returned by `converse(STATUS_SENSE, 5)`:
accumulate `translate_bits(data[i], STATUS_SENSE_MODE_BITS[i])`, then append
`SPEED_TABLE[data[4] & 0xF]`.  Python indexing that would raise (`data[i]`
out of range, or `SPEED_TABLE[...]` past the end of the 15-entry tuple) is
embedded as `none`. -/
def status_sense_decode (data : List Nat) : Option (List (List Char)) := do
  let modeLists ← STATUS_SENSE_MODE_BITS.enum.mapM
      (fun p => (data.get? p.1).map (fun b => translate_bits b p.2))
  let speedByte ← data.get? 4
  let SPEED ← SPEED_TABLE.get? (speedByte &&& 0xF)
  pure (modeLists.flatten ++ [SPEED])

/-- C1: SPEED_TABLE lookup is total over all 16 four-bit values.  The code
violates this: the missing comma on line 113 leaves the tuple with only 15
entries, so speed code 15 (`SPEED_TABLE[0xF]`) raises IndexError — embedded
here as `List.get?` returning `none` — and a STATUS_SENSE response whose
byte 5 has low nibble 0xF makes the whole decode fail. -/
theorem C1_speed_table_not_total :
    SPEED_TABLE.length = 15 ∧
    SPEED_TABLE.get? 15 = none ∧
    status_sense_decode [0, 0, 0, 0, 0x0F] = none := by
  decide

/-- C2 counterexample: decoding `[0x81, 0x00, 0x00, 0x00, 0x04]` does NOT
yield `["ERROR", "STILL"]`. -/
theorem C2_counterexample :
    status_sense_decode [0x81, 0x00, 0x00, 0x00, 0x04] ≠
      some ["ERROR".toList, "STILL".toList] := by
  decide

/-- C2 amended: decoding `[0x81, 0x00, 0x00, 0x00, 0x04]` yields exactly
`["ERROR", "INVALID(4)1"]`: byte 1 bit 0 contributes ERROR, and byte 5's low
nibble 4 indexes `SPEED_TABLE[4]`, which — because the missing comma merged
`'INVALID(4)'` with `'1'` — is the string `"INVALID(4)1"`, appended as the
final element. -/
theorem C2_decode_0x81_speed4 :
    status_sense_decode [0x81, 0x00, 0x00, 0x00, 0x04] =
      some ["ERROR".toList, "INVALID(4)1".toList] := by
  decide

/-! ## converse / oneshot (lines 144-158, 258-288) -/

/-- Exceptions raised by the driver.  `badResponse` embeds
`BadResponseError(expected, got)` (lines 147-152) with its `expected` and
`got` fields; `errorWhileReading` embeds `ErrorWhileReadingError(got)`
(lines 154-158) with its `got` field; `transport` embeds an exception
raised by the underlying pyserial read itself. -/
inductive VCRErr
  | badResponse (expected : Nat) (got : List Nat)
  | errorWhileReading (got : Nat)
  | transport
deriving DecidableEq, Repr

/-- Observable side effects of a `converse` call: a byte written to the
serial port, a `vcr.read(req)` that returned `got`, or a `time.sleep` of the
given number of seconds. -/
inductive Event
  | write (b : Nat)
  | read (req : Nat) (got : List Nat)
  | sleep (seconds : ℚ)
deriving DecidableEq, Repr

/-- Embeds a blocking `vcr.read(n)` against the byte stream `incoming` that
the device will ever send: it yields the first `n` bytes when they exist;
`none` embeds the transport failing (an exception from pyserial). -/
def pyRead (incoming : List Nat) (n : Nat) : Option (List Nat) :=
  if n ≤ incoming.length then some (incoming.take n) else none

/-- Embeds the `try` body of `VCR.converse` (lines 263-283): write the
command byte; with `check` set, read one byte first and raise
`ErrorWhileReadingError` if it is NAK or ERROR, otherwise read the remaining
`num_bytes - 1`; without `check`, read `num_bytes` at once.  Returns the
result together with the list of events performed. -/
def converse_body (command : Nat) (num_bytes : Nat) (check : Bool)
    (incoming : List Nat) : Except VCRErr (List Nat) × List Event :=
  if check then
    match incoming.head? with
    | none => (.error .transport, [.write command])
    | some first_byte =>
      if first_byte = NAK ∨ first_byte = ERROR then
        (.error (.errorWhileReading first_byte),
         [.write command, .read 1 [first_byte]])
      else if num_bytes > 1 then
        match pyRead incoming.tail (num_bytes - 1) with
        | none => (.error .transport, [.write command, .read 1 [first_byte]])
        | some data =>
          (.ok (first_byte :: data),
           [.write command, .read 1 [first_byte], .read (num_bytes - 1) data])
      else
        (.ok [first_byte], [.write command, .read 1 [first_byte]])
  else
    match pyRead incoming num_bytes with
    | none => (.error .transport, [.write command])
    | some data => (.ok data, [.write command, .read num_bytes data])

/-- Embeds `VCR.converse` (lines 263-288): the `try` body followed by the
`finally: time.sleep(0.005)`, which appends a 0.005-second sleep event on
every path, whether the body returned or raised. -/
def converse (command : Nat) (num_bytes : Nat) (check : Bool)
    (incoming : List Nat) : Except VCRErr (List Nat) × List Event :=
  ((converse_body command num_bytes check incoming).1,
   (converse_body command num_bytes check incoming).2 ++ [.sleep (5 / 1000)])

/-- Embeds `VCR.oneshot` (lines 258-261): `converse(command)` with the
default `num_bytes=1, check=False`; raise `BadResponseError(ACK, ret)` when
the reply differs from the single byte `'\x0A'`. -/
def oneshot (command : Nat) (incoming : List Nat) :
    Except VCRErr Unit × List Event :=
  match converse command 1 false incoming with
  | (.ok ret, evs) =>
    if ret ≠ [0x0A] then (.error (.badResponse ACK ret), evs)
    else (.ok (), evs)
  | (.error e, evs) => (.error e, evs)

/-- C5: for every command sent via `converse` with error-sniffing enabled
and an expected reply length of 8 bytes, if the first byte available from
the transport is NAK (0x0B) or ERROR (0x02), `converse` raises
`ErrorWhileReadingError` carrying that byte, and the only read it issues is
the single 1-byte sniff read — it never reads the remaining 7 bytes. -/
theorem C5_sniff_aborts (command b : Nat) (rest : List Nat)
    (h : b = 0x0B ∨ b = 0x02) :
    converse command 8 true (b :: rest) =
      (.error (.errorWhileReading b),
       [.write command, .read 1 [b], .sleep (5 / 1000)]) := by
  rcases h with h | h <;> subst h <;> rfl

/-- C5 witness: a concrete NAK-first exchange. -/
theorem C5_sniff_aborts_witness :
    converse CURRENT_CTL_SENSE 8 true (0x0B :: [1, 2, 3, 4, 5, 6, 7]) =
      (.error (.errorWhileReading 0x0B),
       [.write CURRENT_CTL_SENSE, .read 1 [0x0B], .sleep (5 / 1000)]) :=
  C5_sniff_aborts CURRENT_CTL_SENSE 0x0B [1, 2, 3, 4, 5, 6, 7] (Or.inl rfl)

/-- C6: every invocation of `converse` ends with the 0.005-second
(≥ 5 ms) quiescent sleep, on every path — success, sniffed
`ErrorWhileReadingError`, and transport failure alike: the last event of any
`converse` call is `sleep 0.005`, so by the time control returns no write
can have happened within 5 ms of the end of the read phase. -/
theorem C6_sleep_always (command num_bytes : Nat) (check : Bool)
    (incoming : List Nat) :
    (converse command num_bytes check incoming).2.getLast? =
      some (.sleep (5 / 1000)) ∧ (5 : ℚ) / 1000 * 1000 ≥ 5 := by
  constructor
  · simp [converse]
  · norm_num

/-- C7: `oneshot(command)` succeeds silently exactly when the single reply
byte equals ACK (0x0A); for every other reply byte it raises
`BadResponseError` with `expected = ACK` and `got` the actual byte
received. -/
theorem C7_oneshot_ack (command b : Nat) (rest : List Nat) :
    (oneshot command (b :: rest)).1 =
      if b = ACK then .ok () else .error (.badResponse ACK [b]) := by
  by_cases h : b = 0x0A <;>
    simp [oneshot, converse, converse_body, pyRead, ACK, h]

/-! ## wait_until_mode (lines 250-256) -/

/-- Embeds the `while` loop of `VCR.wait_until_mode` (lines 252-256).
`polls n` is the flag list returned by the n-th `status_sense()` call, `t`
the current value of `time.time()` in seconds, `n` the number of polls
already made, and `fuel` bounds the number of remaining iterations so the
function is total: `none` means the loop was still running when `fuel` ran
out (it diverges up to that depth).  Each iteration polls, and on a miss
sleeps 1 second and then returns `False` when
`abort_time is not None and abort_time > time.time()` — exactly the
comparison written in the source.  The result records the returned boolean,
the time of return, and the number of polls made. -/
def wait_until_mode_aux (mode : List Char) (polls : Nat → List (List Char))
    (abort_time : Option ℚ) : ℚ → Nat → Nat → Option (Bool × ℚ × Nat)
  | _, _, 0 => none
  | t, n, fuel + 1 =>
    if mode ∈ polls n then some (true, t, n + 1)
    else
      match abort_time with
      | some a =>
        if a > t + 1 then some (false, t + 1, n + 1)
        else wait_until_mode_aux mode polls abort_time (t + 1) (n + 1) fuel
      | none => wait_until_mode_aux mode polls abort_time (t + 1) (n + 1) fuel

/-- Embeds `VCR.wait_until_mode` (lines 250-256): starting at time `t0`,
compute `abort_time = None if timeout is None else time.time() + timeout`
and run the polling loop. -/
def wait_until_mode (mode : List Char) (polls : Nat → List (List Char))
    (timeout : Option ℚ) (t0 : ℚ) (fuel : Nat) : Option (Bool × ℚ × Nat) :=
  wait_until_mode_aux mode polls (timeout.map (fun d => t0 + d)) t0 0 fuel

/-- C3: the claim says wait_until_mode never returns False while time still
remains before the deadline.  The code violates it: the abort comparison
`abort_time > time.time()` is inverted, so with timeout 100 and a status
stream that never contains the mode, the call returns False at time 1 —
after a single poll, with 99 seconds still remaining before the deadline at
time 100. -/
theorem C3_returns_false_with_time_remaining :
    wait_until_mode "STOP".toList (fun _ => []) (some 100) 0 5 =
      some (false, 1, 1) ∧ (1 : ℚ) < 0 + 100 := by
  constructor
  · simp [wait_until_mode, wait_until_mode_aux]
  · norm_num

/-- Divergence helper for C4: when the mode never occurs and the abort time
`a` is already at or before the next wake-up, the inverted comparison
`a > t + 1` is false at every iteration, so the loop never exits no matter
how much fuel it is given. -/
theorem wait_aux_never_stops (mode : List Char) (polls : Nat → List (List Char))
    (hpoll : ∀ n, mode ∉ polls n) (a : ℚ) :
    ∀ fuel t n, a ≤ t + 1 →
      wait_until_mode_aux mode polls (some a) t n fuel = none := by
  intro fuel
  induction fuel with
  | zero => intro t n _; rfl
  | succ k ih =>
    intro t n ha
    simp only [wait_until_mode_aux, if_neg (by simpa using hpoll n)]
    rw [if_neg (by exact not_lt.mpr ha)]
    exact ih (t + 1) (n + 1) (by linarith)

/-- C4: the claim says wait_until_mode with timeout=0 and a status stream
never containing the target returns False after at most one poll.  The code
violates it: with timeout 0 the abort time equals the start time, the
inverted comparison `abort_time > time.time()` is false after the first
1-second sleep and stays false forever, so the loop never terminates — for
every fuel bound the run is still going. -/
theorem C4_timeout_zero_diverges :
    ∀ fuel, wait_until_mode "STOP".toList (fun _ => []) (some 0) 0 fuel = none := by
  intro fuel
  unfold wait_until_mode
  exact wait_aux_never_stops _ _ (fun n => by simp) (0 + 0) fuel 0 0 (by norm_num)

/-- C9: for every target mode and every timeout (including 0 and None), if
the very first status_sense poll already contains the target, the loop's
entry test fails immediately and wait_until_mode returns True at the start
time after exactly one poll — the deadline is never consulted, so an
already-reached mode is never reported as a timeout. -/
theorem C9_first_poll_returns_true (mode : List Char)
    (polls : Nat → List (List Char)) (timeout : Option ℚ) (t0 : ℚ)
    (fuel : Nat) (h : mode ∈ polls 0) (hfuel : 1 ≤ fuel) :
    wait_until_mode mode polls timeout t0 fuel = some (true, t0, 1) := by
  obtain ⟨k, rfl⟩ : ∃ k, fuel = k + 1 := ⟨fuel - 1, by omega⟩
  simp [wait_until_mode, wait_until_mode_aux, h]

/-- C9 witness: a concrete first-poll hit with timeout 0. -/
theorem C9_first_poll_returns_true_witness :
    "STOP".toList ∈ (fun _ : Nat => ["STOP".toList]) 0 ∧ (1 : Nat) ≤ 1 ∧
    wait_until_mode "STOP".toList (fun _ => ["STOP".toList]) (some 0) 0 1 =
      some (true, 0, 1) :=
  ⟨by decide, by decide,
   C9_first_poll_returns_true "STOP".toList (fun _ => ["STOP".toList])
     (some 0) 0 1 (by decide) (by decide)⟩

/-! ## VCRTime (lines 127-130, 168-198) -/

/-- Embeds `NTSC_FRAME_RATE` (line 128), exactly as written in the source:
`10000000.*63/88/455/525`, evaluated in ℚ (it equals 30000/1001,
about 29.97). -/
def NTSC_FRAME_RATE : ℚ := 10000000 * 63 / 88 / 455 / 525

/-- Embeds `FRAMES_PER_MILLISECOND` (line 129). -/
def FRAMES_PER_MILLISECOND : ℚ := NTSC_FRAME_RATE / 1000

/-- Embeds `MILLSECONDS_PER_FRAME` (line 130), about 33.37 ms per frame. -/
def MILLSECONDS_PER_FRAME : ℚ := 1 / FRAMES_PER_MILLISECOND

/-- Embeds the digit-run part of Python's `int(str)`: the value of a
non-empty all-digit character run, `none` on an empty run or any non-digit
character. -/
def digitsVal (ds : List Char) : Option Nat :=
  if ds.isEmpty then none
  else ds.foldl (fun acc c =>
    match acc with
    | none => none
    | some a => if c.isDigit then some (a * 10 + (c.toNat - 48)) else none)
    (some 0)

/-- Embeds Python's `int(str)` as used on timecode slices: strip surrounding
whitespace, allow one optional sign, then require a non-empty digit run;
`none` embeds the `ValueError` raised on anything else (in particular on the
empty string produced by slicing a too-short raw_time). -/
def pyInt (s : List Char) : Option Int :=
  match ((s.dropWhile Char.isWhitespace).reverse.dropWhile
      Char.isWhitespace).reverse with
  | '+' :: ds => (digitsVal ds).map (fun n => (n : Int))
  | '-' :: ds => (digitsVal ds).map (fun n => -(n : Int))
  | ds => (digitsVal ds).map (fun n => (n : Int))

/-- Embeds the Python slice `l[a:b]` for `0 ≤ a ≤ b` (out-of-range indices
clamp, never raise). -/
def pySlice (l : List Char) (a b : Nat) : List Char := (l.take b).drop a

/-- Embeds the `VCRTime` class (lines 168-198): `__init__` (lines 169-170)
only stores `raw_time`, verbatim and unexamined. -/
structure VCRTime where
  raw_time : List Char
deriving DecidableEq, Repr

/-- Embeds the `hours` property (lines 172-174): `int(self.raw_time[0:2])`. -/
def VCRTime.hours (v : VCRTime) : Option Int := pyInt (pySlice v.raw_time 0 2)

/-- Embeds the `minutes` property (lines 176-178): `int(self.raw_time[2:4])`. -/
def VCRTime.minutes (v : VCRTime) : Option Int := pyInt (pySlice v.raw_time 2 4)

/-- Embeds the `seconds` property (lines 180-182): `int(self.raw_time[4:6])`. -/
def VCRTime.seconds (v : VCRTime) : Option Int := pyInt (pySlice v.raw_time 4 6)

/-- Embeds the `frames` property (lines 184-186): `int(self.raw_time[6:8])`. -/
def VCRTime.frames (v : VCRTime) : Option Int := pyInt (pySlice v.raw_time 6 8)

/-- Embeds the `timedelta` property (lines 188-195) as the total duration in
milliseconds:
`datetime.timedelta(hours=h, minutes=m, seconds=s,
milliseconds=frames * MILLSECONDS_PER_FRAME)`; `none` embeds a property
access raising on a malformed `raw_time`. -/
def VCRTime.timedelta (v : VCRTime) : Option ℚ := do
  let h ← v.hours
  let m ← v.minutes
  let s ← v.seconds
  let f ← v.frames
  pure ((h : ℚ) * 60 * 60 * 1000 + (m : ℚ) * 60 * 1000 + (s : ℚ) * 1000 +
    (f : ℚ) * MILLSECONDS_PER_FRAME)

/-- C8: parsing the 8-character ASCII string "01023512" yields hours = 1,
minutes = 2, seconds = 35, frames = 12 (two decimal digits per field in
hours/minutes/seconds/frames order), and the resulting duration is
1 h 2 m 35 s plus 12 frame-durations, one frame lasting
`1000 / (10000000 * 63 / 88 / 455 / 525)` milliseconds (~33.37 ms). -/
theorem C8_timecode_01023512 :
    (VCRTime.mk "01023512".toList).hours = some 1 ∧
    (VCRTime.mk "01023512".toList).minutes = some 2 ∧
    (VCRTime.mk "01023512".toList).seconds = some 35 ∧
    (VCRTime.mk "01023512".toList).frames = some 12 ∧
    (VCRTime.mk "01023512".toList).timedelta =
      some (((1 * 60 + 2) * 60 + 35) * 1000 + 12 * (1000 / NTSC_FRAME_RATE)) := by
  refine ⟨by decide, by decide, by decide, by decide, ?_⟩
  have h : (VCRTime.mk "01023512".toList).hours = some 1 ∧
      (VCRTime.mk "01023512".toList).minutes = some 2 ∧
      (VCRTime.mk "01023512".toList).seconds = some 35 ∧
      (VCRTime.mk "01023512".toList).frames = some 12 :=
    ⟨by decide, by decide, by decide, by decide⟩
  rw [VCRTime.timedelta, h.1, h.2.1, h.2.2.1, h.2.2.2]
  simp only [Option.bind_some, Option.pure_def]
  rw [MILLSECONDS_PER_FRAME, FRAMES_PER_MILLISECOND, NTSC_FRAME_RATE]
  norm_num

/-- C10: `VCRTime.__init__` performs no validation: constructing a VCRTime
from any character list always succeeds and stores the raw value verbatim;
a malformed raw_time — non-digit characters ("XXXXXXXX") or the wrong
length ("01", whose minutes slice is empty) — fails only when `hours`,
`minutes` or `timedelta` is accessed, never at construction. -/
theorem C10_no_construction_validation :
    (∀ s, (VCRTime.mk s).raw_time = s) ∧
    (VCRTime.mk "XXXXXXXX".toList).hours = none ∧
    (VCRTime.mk "XXXXXXXX".toList).timedelta = none ∧
    (VCRTime.mk "01".toList).hours = some 1 ∧
    (VCRTime.mk "01".toList).minutes = none ∧
    (VCRTime.mk "01".toList).timedelta = none := by
  refine ⟨fun s => rfl, by decide, ?_, by decide, by decide, ?_⟩
  · have h : (VCRTime.mk "XXXXXXXX".toList).hours = none := by decide
    rw [VCRTime.timedelta, h]
    rfl
  · have h : (VCRTime.mk "01".toList).minutes = none := by decide
    have h0 : (VCRTime.mk "01".toList).hours = some 1 := by decide
    rw [VCRTime.timedelta, h0, h]
    rfl
